import Mathlib

/-!
Verification development for the depthcharge-tools image construction
pipeline.  The definitions below are shallow embeddings of the Python
sources:

 - `mkdepthcharge.files` / `mkdepthcharge.cmdline` / `mkdepthcharge.kernel_start`
   and the zimage padding arithmetic from `depthcharge_tools/mkdepthcharge.py`;
 - `Architecture.__eq__` / `Architecture.__ne__` from `depthcharge_tools/utils.py`;
 - `depthchargectl_build.__call__` (the size-fit driver loop) from
   `depthcharge_tools/depthchargectl/_build.py`.

Bytes are modelled as natural numbers, byte strings as lists of naturals,
Python integers as `Nat`/`Int` (Python `//` is floor division, i.e. `Int.fdiv`),
and calls to external executables (gzip, mkimage, vbutil_kernel) as explicit
outcome parameters, since those tools are outside the repository.
-/

namespace Depthcharge

/-- A byte string: the contents of a file (or a bounded read of one). -/
abbrev ByteStr := List Nat

/-- Python `bytes.startswith`: does `h` begin with the bytes `p`? -/
def startsWithBytes : ByteStr → ByteStr → Bool
  | _, [] => true
  | [], _ :: _ => false
  | a :: as, b :: bs => a == b && startsWithBytes as bs

/-- The two-byte gzip signature `b"\x1f\x8b"`. -/
def gzipMagic : ByteStr := [0x1f, 0x8b]

/-- The bytes of `b"MZ"` (PE signature checked by `mkdepthcharge.files`). -/
def mzMagic : ByteStr := [0x4d, 0x5a]

/-- The bytes of `b"ELF"`: the literal the source compares against
(`head.startswith(b"ELF")` in `mkdepthcharge.files`). -/
def elfLiteral : ByteStr := [0x45, 0x4c, 0x46]

/-- The actual four-byte ELF magic `0x7f` followed by `"ELF"`,
as it appears at the start of every real ELF file. -/
def elfMagic : ByteStr := [0x7f, 0x45, 0x4c, 0x46]

/-- The bytes of `b"070701"` (new ASCII cpio signature). -/
def cpioMagic1 : ByteStr := [0x30, 0x37, 0x30, 0x37, 0x30, 0x31]

/-- The bytes of `b"070702"` (new CRC cpio signature). -/
def cpioMagic2 : ByteStr := [0x30, 0x37, 0x30, 0x37, 0x30, 0x32]

/-- The bytes of `b"070707"` (old ASCII cpio signature). -/
def cpioMagic7 : ByteStr := [0x30, 0x37, 0x30, 0x37, 0x30, 0x37]

/-- The device-tree blob magic `b"\xd0\x0d\xfe\xed"`. -/
def dtbMagic : ByteStr := [0xd0, 0x0d, 0xfe, 0xed]

/-- Outcome of running the external `gzip` decompressor on the read prefix
of a file (`gzip_runner.decompress(head, subprocess.PIPE)`).  `exitZero`
is a successful exit (a complete gzip stream was decompressed);
`calledProcessError out` is a nonzero exit, raising
`subprocess.CalledProcessError` whose `output` attribute is `out`
(the partial decompression produced before the failure, possibly empty). -/
inductive GzipRun
  | exitZero
  | calledProcessError (out : ByteStr)

/-- The gzip pre-step of `mkdepthcharge.files`: when `head` starts with the
gzip signature the source runs the decompressor and replaces `head` with
`err.output` only when a `CalledProcessError` with nonempty output was
raised; on a successful exit the (compressed) `head` is kept unchanged. -/
def gzipStep (gz : GzipRun) (head : ByteStr) : ByteStr :=
  if startsWithBytes head gzipMagic then
    match gz with
    | .exitZero => head
    | .calledProcessError out => if out.isEmpty then head else out
  else head

/-- The classified input set of `mkdepthcharge.files`: lists of files
assigned to the vmlinuz (kernel), initramfs (ramdisk) and dtbs
(device-tree) roles.  `α` stands for file identities (paths). -/
structure InputFiles (α : Type) where
  vmlinuz : List α
  initramfs : List α
  dtbs : List α
deriving DecidableEq

/-- One iteration of the loop in `mkdepthcharge.files`: assign file `f`
whose (gzip-processed) read prefix is `head` to a role.  Mirrors the
if/elif chain of the source: `MZ` or `ELF` literal to vmlinuz, the three
cpio signatures to initramfs, the dtb magic to dtbs, and otherwise the
first still-empty slot in the order vmlinuz, initramfs, dtbs. -/
def classifyStep {α : Type} (acc : InputFiles α) (f : α) (head : ByteStr) :
    InputFiles α :=
  if startsWithBytes head mzMagic || startsWithBytes head elfLiteral then
    { acc with vmlinuz := acc.vmlinuz ++ [f] }
  else if startsWithBytes head cpioMagic1 || startsWithBytes head cpioMagic2
      || startsWithBytes head cpioMagic7 then
    { acc with initramfs := acc.initramfs ++ [f] }
  else if startsWithBytes head dtbMagic then
    { acc with dtbs := acc.dtbs ++ [f] }
  else if acc.vmlinuz.length == 0 then
    { acc with vmlinuz := acc.vmlinuz ++ [f] }
  else if acc.initramfs.length == 0 then
    { acc with initramfs := acc.initramfs ++ [f] }
  else
    { acc with dtbs := acc.dtbs ++ [f] }

/-- `mkdepthcharge.files`: classify an ordered list of input files.  Every
input is a triple of its identity, the bounded prefix read from it
(`f_.read(4096)`), and the behavior of the external gzip tool on that
prefix (consulted only when the prefix has the gzip signature). -/
def files {α : Type} (inputs : List (α × ByteStr × GzipRun)) : InputFiles α :=
  inputs.foldl
    (fun acc i => classifyStep acc i.1 (gzipStep i.2.2 i.2.1))
    ⟨[], [], []⟩

/-- The role a classified file ends up with. -/
inductive Role
  | kernel
  | ramdisk
  | devicetree
deriving DecidableEq

/-- The role assigned to file `f` by a classification result. -/
def roleOf {α : Type} [DecidableEq α] (r : InputFiles α) (f : α) : Option Role :=
  if f ∈ r.vmlinuz then some .kernel
  else if f ∈ r.initramfs then some .ramdisk
  else if f ∈ r.dtbs then some .devicetree
  else none

/-- The signature class of a read prefix: which of the three signature
rules of `mkdepthcharge.files` it matches, if any.  This repeats the
conditions of `classifyStep` verbatim, so that invariance lemmas can be
stated in terms of the matched signature alone. -/
def sigClass (head : ByteStr) : Option Role :=
  if startsWithBytes head mzMagic || startsWithBytes head elfLiteral then
    some .kernel
  else if startsWithBytes head cpioMagic1 || startsWithBytes head cpioMagic2
      || startsWithBytes head cpioMagic7 then
    some .ramdisk
  else if startsWithBytes head dtbMagic then
    some .devicetree
  else
    none

/-- Classification by signature class: `classifyStep` factors through
`sigClass`. -/
def classifyBySig {α : Type} (acc : InputFiles α) (f : α) : Option Role →
    InputFiles α
  | some .kernel => { acc with vmlinuz := acc.vmlinuz ++ [f] }
  | some .ramdisk => { acc with initramfs := acc.initramfs ++ [f] }
  | some .devicetree => { acc with dtbs := acc.dtbs ++ [f] }
  | none =>
    if acc.vmlinuz.length == 0 then
      { acc with vmlinuz := acc.vmlinuz ++ [f] }
    else if acc.initramfs.length == 0 then
      { acc with initramfs := acc.initramfs ++ [f] }
    else
      { acc with dtbs := acc.dtbs ++ [f] }

/-- The group `Architecture.arm_32` from `utils.py`. -/
def arm_32 : List String := ["arm"]

/-- The group `Architecture.arm_64` from `utils.py`. -/
def arm_64 : List String := ["arm64", "aarch64"]

/-- The class `Architecture.arm = arm_32 + arm_64` from `utils.py`. -/
def armClass : List String := arm_32 ++ arm_64

/-- The group `Architecture.x86_32` from `utils.py`. -/
def x86_32 : List String := ["i386", "x86"]

/-- The group `Architecture.x86_64` from `utils.py`. -/
def x86_64 : List String := ["x86_64", "amd64"]

/-- The class `Architecture.x86 = x86_32 + x86_64` from `utils.py`. -/
def x86Class : List String := x86_32 ++ x86_64

/-- `Architecture.all` from `utils.py`. -/
def allArchitectures : List String := armClass ++ x86Class

/-- `Architecture.groups = (arm_32, arm_64, x86_32, x86_64)` from `utils.py`. -/
def archGroups : List (List String) := [arm_32, arm_64, x86_32, x86_64]

/-- `Architecture.__eq__` from `utils.py`, for the case where both operands
are `Architecture` values: return `True` as soon as some group contains
both strings, and otherwise fall back to plain string equality. -/
def archEq (a b : String) : Bool :=
  archGroups.any (fun g => g.contains a && g.contains b) || a == b

/-- `Architecture.__ne__` from `utils.py`, for the case where both operands
are `Architecture` values: return `True` as soon as some group contains
`a` but not `b`, and otherwise fall back to plain string inequality. -/
def archNe (a b : String) : Bool :=
  archGroups.any (fun g => g.contains a && !(g.contains b)) || a != b

/-- `mkdepthcharge.cmdline`: join the user-supplied command-line arguments
(the literal `"--"` when there are none, since `vbutil_kernel` rejects an
empty cmdline; a single string argument is taken as-is; several are joined
with spaces), then prepend `kern_guid=%U` unless that was disabled. -/
def cmdline (cmd : List String) (kern_guid : Bool) : String :=
  let c : String :=
    match cmd with
    | [] => "--"
    | [c0] => c0
    | cs => String.intercalate " " cs
  if kern_guid then String.intercalate " " ["kern_guid=%U", c] else c

/-- A Python runtime error raised while resolving an option. -/
inductive PyError
  | nameError
deriving DecidableEq

/-- `mkdepthcharge.kernel_start`: with no explicit `--kernel-start` value it
returns the default `0x100000`.  With an explicit value the source executes
`return parse_bytesize(pad)`, but no name `pad` is bound in that scope (the
parameter is named `addr`), so evaluating the argument raises `NameError`
before `parse_bytesize` is ever applied; that branch is therefore the
raised error. -/
def kernel_start (addr : Option String) : Except PyError Nat :=
  match addr with
  | none => .ok 0x100000
  | some _ => .error .nameError

/-- The zimage address/offset translation `addr_to_offs` defined inside
`mkdepthcharge.__call__`: `addr - load_addr + 0x10000`. -/
def addr_to_offs (addr load_addr : Int) : Int := addr - load_addr + 0x10000

/-- The inverse translation `offs_to_addr` from `mkdepthcharge.__call__`. -/
def offs_to_addr (offs load_addr : Int) : Int := offs + load_addr - 0x10000

/-- `align_up` from `mkdepthcharge.__call__`: round `size` up to the next
multiple of `align` (Python `//` is floor division, `Int.fdiv`). -/
def align_up (size align : Int) : Int := ((size + align - 1).fdiv align) * align

/-- A vmlinuz file as seen through `mmap`: its byte size and the byte at
each offset. -/
structure VmlinuzFile where
  size : Nat
  byte : Nat → Nat

/-- Read an `n`-byte little-endian unsigned integer at offset `off`, as
`struct.unpack` with `<Q` / `<I` does. -/
def readLE (f : Nat → Nat) (off : Nat) : Nat → Nat
  | 0 => 0
  | n + 1 => f off + 256 * readLE f (off + 1) n

/-- The bzImage header check of `mkdepthcharge.__call__`:
`data[0x202:0x206] == b"HdrS"`. -/
def hdrS_ok (v : VmlinuzFile) : Bool :=
  v.byte 0x202 == 0x48 && v.byte 0x203 == 0x64
    && v.byte 0x204 == 0x72 && v.byte 0x205 == 0x53

/-- The `pref_address` field: 8-byte little-endian at offset `0x258`
(`struct.unpack("<QI", data[0x258:0x264])`). -/
def pref_address (v : VmlinuzFile) : Nat := readLE v.byte 0x258 8

/-- The `init_size` field: 4-byte little-endian at offset `0x260`. -/
def init_size (v : VmlinuzFile) : Nat := readLE v.byte 0x260 4

/-- The padding target of `mkdepthcharge.__call__`:
`pad_to = align_up(addr_to_offs(pref_address + init_size))`, with the
file-offset translation anchored at `self.kernel_start`. -/
def pad_to (v : VmlinuzFile) (kernel_start_addr : Int) : Int :=
  align_up (addr_to_offs ((pref_address v : Int) + (init_size v : Int))
    kernel_start_addr) 0x1000

/-- The size of the vmlinuz file after the padding step: the source resizes
the mapping only when `pad_to > data.size()` (`data.resize(pad_to)`), and
leaves the file alone otherwise. -/
def padded_size (v : VmlinuzFile) (kernel_start_addr : Int) : Nat :=
  if pad_to v kernel_start_addr > (v.size : Int) then
    (pad_to v kernel_start_addr).toNat
  else
    v.size

/-- Behavior of one `mkdepthcharge` invocation's external tools, seen from
the size-fit driver: the packing step (`mkimage`/`vbutil_kernel --pack`)
either fails (nonzero exit, modelled as `.error`) or writes an image of
the given byte size to the requested output path, and the final
`vbutil_kernel --verify` call exits zero or not. -/
structure MkRun where
  packExit : Except Unit Nat
  verifyExit : Bool

/-- Result of one `mkdepthcharge` call: Python exceptions propagating out
of it (tool failure or a failed post-sign verification) versus a normal
return after the output was written and verified. -/
inductive MkResult
  | failure
  | success (size : Nat)
deriving DecidableEq

/-- Whether a `mkdepthcharge` invocation returns or raises: a failed pack
raises at the pack call; a packed image that fails `--verify` raises at
the verify call; otherwise the call returns with the packed size. -/
def mkOutcome (r : MkRun) : MkResult :=
  match r.packExit with
  | .error _ => .failure
  | .ok sz => if r.verifyExit then .success sz else .failure

/-- What is left at `mkdepthcharge`'s output path (the driver's temporary
path `outtmp`) after the invocation: the pack step writes the image there
even when the later verification fails; a failed pack leaves the previous
content. -/
def mkWrite (r : MkRun) (t : Option Nat) : Option Nat :=
  match r.packExit with
  | .error _ => t
  | .ok sz => some sz

/-- The environment of one `depthchargectl_build.__call__` run: the board
maximum image size, the input file sizes, and the behavior of the external
tools for each compression candidate (`self.compress` entries are
strings `"none"`, `"lz4"`, `"lzma"`). -/
structure BuildEnv where
  image_max_size : Nat
  kernel_size : Nat
  initrd : Option Nat
  dtb_sizes : List Nat
  run : String → MkRun

/-- The files at the two paths the driver writes: the temporary build path
`outtmp = tmpdir / (output.name + ".tmp")` and the final output path
`self.output`.  `none` means no file exists there. -/
structure OutState where
  outtmp : Option Nat
  output : Option Nat
deriving DecidableEq

/-- `initrd_size` from `depthchargectl_build.__call__`: the initramfs size
or `0` when there is none. -/
def initrd_size (e : BuildEnv) : Nat := e.initrd.getD 0

/-- `inputs_size` from `depthchargectl_build.__call__`: the sum of the
kernel, initramfs and device-tree file sizes. -/
def inputs_size (e : BuildEnv) : Nat :=
  e.kernel_size + initrd_size e + e.dtb_sizes.sum

/-- The errors `depthchargectl_build.__call__` can raise:
`InitramfsSizeTooBigError`, `SizeTooBigError`, and the `CommandExit`
re-raised when a `mkdepthcharge` call fails. -/
inductive BuildError
  | initramfsSizeTooBig
  | sizeTooBig
  | commandExit
deriving DecidableEq

/-- The `for compress in compress_list` loop of
`depthchargectl_build.__call__`.  For each candidate: call `mkdepthcharge`
with the output at `outtmp`; any exception is re-raised as `CommandExit`
at once; on a normal return, if the built size is strictly below the board
maximum, copy `outtmp` to the final output and return that candidate,
otherwise warn and continue; the loop's `else` clause raises the size
error, blaming the initramfs when one is present. -/
def buildLoop (e : BuildEnv) : List String → OutState →
    Except BuildError String × OutState
  | [], s =>
    (.error (if e.initrd.isSome then .initramfsSizeTooBig else .sizeTooBig), s)
  | c :: rest, s =>
    match mkOutcome (e.run c) with
    | .failure =>
      (.error .commandExit, { s with outtmp := mkWrite (e.run c) s.outtmp })
    | .success sz =>
      if sz < e.image_max_size then
        (.ok c, { outtmp := mkWrite (e.run c) s.outtmp,
                  output := mkWrite (e.run c) s.outtmp })
      else
        buildLoop e rest { s with outtmp := mkWrite (e.run c) s.outtmp }

/-- The effective candidate list the loop runs over, after the
drop-uncompressed pre-check of `depthchargectl_build.__call__`
(`if inputs_size > max and "none" in compress_list: compress_list.remove("none")`;
Python `list.remove` deletes the first occurrence, `List.erase`). -/
def effList (e : BuildEnv) (compress_list : List String) : List String :=
  if inputs_size e > e.image_max_size && compress_list.contains "none" then
    compress_list.erase "none"
  else compress_list

/-- The body of `depthchargectl_build.__call__`: fail with
`InitramfsSizeTooBigError` when the initramfs alone is at or above the
board maximum; drop the `"none"` candidate when the plain input sizes
already exceed the maximum; then run the candidate loop. -/
def build_call (e : BuildEnv) (compress_list : List String) (s : OutState) :
    Except BuildError String × OutState :=
  if initrd_size e ≥ e.image_max_size then
    (.error .initramfsSizeTooBig, s)
  else
    buildLoop e (effList e compress_list) s

/-- Tool behavior reproducing the worked example of the specification:
an uncompressed build of 5 MiB, an lz4 build of 3 MiB and an lzma build
of 2 MiB, all packing and verifying cleanly, on a board with a 4 MiB
maximum image size and a 1 MiB kernel. -/
def eFits : BuildEnv where
  image_max_size := 4194304
  kernel_size := 1048576
  initrd := none
  dtb_sizes := []
  run := fun c =>
    if c = "none" then ⟨.ok 5242880, true⟩
    else if c = "lz4" then ⟨.ok 3145728, true⟩
    else ⟨.ok 2097152, true⟩

/-- Tool behavior where the external packer fails (nonzero exit) for the
uncompressed candidate while the lz4 candidate would build a small,
verified 1 MiB image. -/
def eToolFail : BuildEnv where
  image_max_size := 4194304
  kernel_size := 1048576
  initrd := none
  dtb_sizes := []
  run := fun c =>
    if c = "none" then ⟨.error (), true⟩
    else ⟨.ok 1048576, true⟩

/-- Tool behavior where the uncompressed candidate builds oversized
(5 MiB, above the 4 MiB board maximum), the lz4 candidate fails in an
external tool, and the lzma candidate would build a small verified
image. -/
def eMixed : BuildEnv where
  image_max_size := 4194304
  kernel_size := 1048576
  initrd := none
  dtb_sizes := []
  run := fun c =>
    if c = "none" then ⟨.ok 5242880, true⟩
    else if c = "lz4" then ⟨.error (), true⟩
    else ⟨.ok 2097152, true⟩

/-- A vmlinuz file with a valid bzImage header (`HdrS` at `0x202`),
`pref_address = 0x100000`, `init_size = 0`, and 0x40000 bytes of content:
its header-derived padding target `0x10000` is smaller than the file. -/
def vEx : VmlinuzFile where
  size := 0x40000
  byte := fun i =>
    if i = 0x202 then 0x48 else if i = 0x203 then 0x64
    else if i = 0x204 then 0x72 else if i = 0x205 then 0x53
    else if i = 0x25a then 0x10 else 0

/-- The read prefix of a gzip member whose complete stream fits inside the
4096-byte read: two magic bytes, the deflate method byte and an empty flag
byte.  On such input the external decompressor consumes the whole stream
and exits zero. -/
def wrappedHead : ByteStr := [0x1f, 0x8b, 0x08, 0x00]

theorem classifyStep_eq_classifyBySig {α : Type} (acc : InputFiles α) (f : α)
    (head : ByteStr) :
    classifyStep acc f head = classifyBySig acc f (sigClass head) := by
  unfold classifyStep sigClass classifyBySig
  split_ifs <;> rfl

theorem kern_guid_pair (s : String) :
    String.intercalate " " ["kern_guid=%U", s] = "kern_guid=%U " ++ s := by
  have h : ("kern_guid=%U" ++ " " : String) = "kern_guid=%U " := by decide
  show ("kern_guid=%U" ++ " ") ++ s = "kern_guid=%U " ++ s
  rw [h]

theorem mkWrite_of_success (r : MkRun) (sz : Nat) (t : Option Nat)
    (h : mkOutcome r = .success sz) : mkWrite r t = some sz := by
  obtain ⟨p, v⟩ := r
  cases p with
  | error u => simp [mkOutcome] at h
  | ok sz' =>
    cases v with
    | false => simp [mkOutcome] at h
    | true =>
      simp [mkOutcome] at h
      simp [mkWrite, h]

theorem verify_of_success (r : MkRun) (sz : Nat)
    (h : mkOutcome r = .success sz) : r.verifyExit = true := by
  obtain ⟨p, v⟩ := r
  cases p with
  | error u => simp [mkOutcome] at h
  | ok sz' =>
    cases v with
    | false => simp [mkOutcome] at h
    | true => rfl

theorem buildLoop_error_output (e : BuildEnv) :
    ∀ (l : List String) (s : OutState) (err : BuildError) (s' : OutState),
      buildLoop e l s = (.error err, s') → s'.output = s.output := by
  intro l
  induction l with
  | nil =>
    intro s err s' h
    simp only [buildLoop] at h
    injection h with h1 h2
    subst h2
    rfl
  | cons c rest ih =>
    intro s err s' h
    cases hm : mkOutcome (e.run c) with
    | failure =>
      simp only [buildLoop, hm] at h
      injection h with h1 h2
      subst h2
      rfl
    | success sz =>
      simp only [buildLoop, hm] at h
      by_cases hsz : sz < e.image_max_size
      · rw [if_pos hsz] at h
        injection h with h1 h2
        exact absurd h1 (by simp)
      · rw [if_neg hsz] at h
        exact (ih _ _ _ h).trans rfl

theorem buildLoop_ok (e : BuildEnv) :
    ∀ (l : List String) (s : OutState) (c : String) (s' : OutState),
      buildLoop e l s = (.ok c, s') →
      ∃ sz preC restC, l = preC ++ c :: restC ∧
        mkOutcome (e.run c) = .success sz ∧ sz < e.image_max_size ∧
        s'.output = some sz ∧
        ∀ c' ∈ preC, ∃ sz', mkOutcome (e.run c') = .success sz' ∧
          e.image_max_size ≤ sz' := by
  intro l
  induction l with
  | nil =>
    intro s c s' h
    simp only [buildLoop] at h
    injection h with h1 h2
    exact absurd h1 (by simp)
  | cons c0 rest ih =>
    intro s c s' h
    cases hm : mkOutcome (e.run c0) with
    | failure =>
      simp only [buildLoop, hm] at h
      injection h with h1 h2
      exact absurd h1 (by simp)
    | success sz =>
      simp only [buildLoop, hm] at h
      by_cases hsz : sz < e.image_max_size
      · rw [if_pos hsz] at h
        injection h with h1 h2
        injection h1 with h1
        subst h1
        refine ⟨sz, [], rest, rfl, hm, hsz, ?_, by simp⟩
        rw [← h2]
        exact mkWrite_of_success _ _ _ hm
      · rw [if_neg hsz] at h
        obtain ⟨sz', preC, restC, hl, hsucc, hlt, hout, hpre⟩ := ih _ _ _ h
        refine ⟨sz', c0 :: preC, restC, by simp [hl], hsucc, hlt, hout, ?_⟩
        intro c' hc'
        rcases List.mem_cons.mp hc' with rfl | hmem
        · exact ⟨sz, hm, not_lt.mp hsz⟩
        · exact hpre c' hmem

/-- Claim C1, counterexample.  With candidates `["none", "lz4"]` where the
uncompressed build fails in an external tool and the lz4 build would
produce a small verified image, the size-fit driver raises `CommandExit`
immediately: it does not proceed to the lz4 candidate, contradicting the
claim that a tool failure abandons only that candidate and escalates only
after every candidate has been attempted. -/
theorem C1_counterexample :
    (build_call eToolFail ["none", "lz4"] ⟨none, none⟩).1 = .error .commandExit ∧
    mkOutcome (eToolFail.run "lz4") = .success 1048576 ∧
    1048576 < eToolFail.image_max_size :=
  ⟨rfl, rfl, by decide⟩

/-- Claim C1 (amended): when the size-fit driver reaches a candidate whose
`mkdepthcharge` invocation raises (an external tool exited nonzero or the
post-sign verification failed), it raises `CommandExit` at once, abandoning
every remaining candidate; only candidates that build successfully but at
or above the board maximum size are skipped in favor of the next one. -/
theorem C1_tool_failure_aborts (e : BuildEnv) :
    ∀ (preC : List String) (c : String) (restC : List String) (s : OutState),
      (∀ c' ∈ preC, ∃ sz', mkOutcome (e.run c') = .success sz' ∧
        e.image_max_size ≤ sz') →
      mkOutcome (e.run c) = .failure →
      (buildLoop e (preC ++ c :: restC) s).1 = .error .commandExit := by
  intro preC
  induction preC with
  | nil =>
    intro c restC s hpre hc
    simp only [List.nil_append, buildLoop, hc]
  | cons p ps ih =>
    intro c restC s hpre hc
    obtain ⟨szp, hps, hge⟩ := hpre p (List.mem_cons_self p ps)
    simp only [List.cons_append, buildLoop, hps, if_neg (not_lt.mpr hge)]
    exact ih c restC _ (fun c' hc' => hpre c' (List.mem_cons_of_mem p hc')) hc

/-- Witness for the amended claim C1: on `eMixed` the first candidate
builds oversized, the second fails in a tool, and the driver's loop
result is `CommandExit` without reaching the third candidate. -/
theorem C1_tool_failure_aborts_witness :
    (buildLoop eMixed (["none"] ++ "lz4" :: ["lzma"]) ⟨none, none⟩).1
      = .error .commandExit :=
  C1_tool_failure_aborts eMixed ["none"] "lz4" ["lzma"] ⟨none, none⟩
    (by
      intro c' hc'
      rw [List.mem_singleton] at hc'
      subst hc'
      exact ⟨5242880, rfl, by decide⟩)
    rfl

/-- Claim C2 (code bug, evaluation at the failing input).  The real ELF
magic is the byte `0x7f` followed by `"ELF"`, but `mkdepthcharge.files`
compares the prefix against the literal `b"ELF"`, so a genuine ELF file is
never matched by the kernel signature rule (`sigClass elfMagic = none`):
given a PE (`MZ`) file followed by an ELF file, the positional fallback
puts the ELF file in the ramdisk slot instead of the kernel slot. -/
theorem C2_elf_misclassified :
    elfMagic = 0x7f :: elfLiteral ∧
    sigClass elfMagic = none ∧
    (files [(0, mzMagic, GzipRun.exitZero), (1, elfMagic, GzipRun.exitZero)]
      : InputFiles Nat) = ⟨[0], [1], []⟩ ∧
    roleOf (files [(0, mzMagic, GzipRun.exitZero), (1, elfMagic, GzipRun.exitZero)]) 1
      = some Role.ramdisk := by
  decide

/-- Claim C3: the size-fit driver returns the first candidate, in priority
order over the effective candidate list, whose built image size is
strictly below the board maximum: every earlier candidate built
successfully but at or above the maximum, and the final output file's
size is the chosen candidate's size, strictly below the maximum. -/
theorem C3_first_fit_selection (e : BuildEnv) (cl : List String) (s : OutState)
    (c : String) (s' : OutState) (h : build_call e cl s = (.ok c, s')) :
    ∃ sz preC restC, effList e cl = preC ++ c :: restC ∧
      mkOutcome (e.run c) = .success sz ∧ sz < e.image_max_size ∧
      s'.output = some sz ∧
      ∀ c' ∈ preC, ∃ sz', mkOutcome (e.run c') = .success sz' ∧
        e.image_max_size ≤ sz' := by
  unfold build_call at h
  split at h
  · injection h with h1 h2
    exact absurd h1 (by simp)
  · exact buildLoop_ok e _ _ _ _ h

/-- Witness for claim C3, the specification's worked example: candidates
`none`/`lz4`/`lzma` building 5 MiB, 3 MiB and 2 MiB images on a 4 MiB
board select the lz4 build (first under the limit), not the smallest. -/
theorem C3_first_fit_selection_witness :
    ∃ sz preC restC,
      effList eFits ["none", "lz4", "lzma"] = preC ++ "lz4" :: restC ∧
      mkOutcome (eFits.run "lz4") = .success sz ∧ sz < eFits.image_max_size ∧
      (OutState.mk (some 3145728) (some 3145728)).output = some sz ∧
      ∀ c' ∈ preC, ∃ sz', mkOutcome (eFits.run c') = .success sz' ∧
        eFits.image_max_size ≤ sz' :=
  C3_first_fit_selection eFits ["none", "lz4", "lzma"] ⟨none, none⟩ "lz4"
    ⟨some 3145728, some 3145728⟩ rfl

/-- Claim C4: on every failure path of the size-fit driver (tool failure,
all candidates oversized, failed post-sign verification, or the
initramfs-too-big pre-check) the file at the final output path is exactly
what it was before the call — a failed or oversized attempt never
overwrites a previously valid output; and on success the output path
holds an image whose build passed the post-sign verification and whose
size is strictly below the board maximum. -/
theorem C4_output_path_safety (e : BuildEnv) (cl : List String) (s : OutState) :
    (∀ err s', build_call e cl s = (.error err, s') → s'.output = s.output) ∧
    (∀ c s', build_call e cl s = (.ok c, s') →
      ∃ sz, mkOutcome (e.run c) = .success sz ∧ (e.run c).verifyExit = true ∧
        s'.output = some sz ∧ sz < e.image_max_size) := by
  constructor
  · intro err s' h
    unfold build_call at h
    split at h
    · injection h with h1 h2
      subst h2
      rfl
    · exact buildLoop_error_output e _ _ _ _ h
  · intro c s' h
    unfold build_call at h
    split at h
    · injection h with h1 h2
      exact absurd h1 (by simp)
    · obtain ⟨sz, preC, restC, hl, hsucc, hlt, hout, hpre⟩ :=
        buildLoop_ok e _ _ _ _ h
      exact ⟨sz, hsucc, verify_of_success _ _ hsucc, hout, hlt⟩

/-- Witness for claim C4: the successful `eFits` run leaves a verified
3 MiB image, below the 4 MiB maximum, at the output path. -/
theorem C4_output_path_safety_witness :
    ∃ sz, mkOutcome (eFits.run "lz4") = .success sz ∧
      (eFits.run "lz4").verifyExit = true ∧
      (OutState.mk (some 3145728) (some 3145728)).output = some sz ∧
      sz < eFits.image_max_size :=
  (C4_output_path_safety eFits ["none", "lz4", "lzma"] ⟨none, none⟩).2 "lz4"
    ⟨some 3145728, some 3145728⟩ rfl

/-- Claim C5, counterexample.  A cpio archive classifies as ramdisk by
signature, but a gzip-compressed copy whose complete stream fits inside
the 4096-byte read prefix makes the external decompressor exit zero, in
which case `mkdepthcharge.files` keeps running the signature checks on
the compressed bytes: in a context where the kernel and ramdisk slots are
already taken, the wrapped copy falls through to the device-tree slot
while the uncompressed original classifies as ramdisk. -/
theorem C5_counterexample :
    roleOf (files [(0, mzMagic, GzipRun.exitZero), (1, cpioMagic1, GzipRun.exitZero),
        (2, cpioMagic1, GzipRun.exitZero)]) 2 = some Role.ramdisk ∧
    roleOf (files [(0, mzMagic, GzipRun.exitZero), (1, cpioMagic1, GzipRun.exitZero),
        (2, wrappedHead, GzipRun.exitZero)]) 2 = some Role.devicetree := by
  decide

/-- Claim C5 (amended): classification is invariant under gzip wrapping
provided the external decompressor fails on the wrapped read prefix with
nonempty partial output whose signature class equals that of the
original's effective prefix — the typical case when the gzip stream
extends past the 4096-byte read.  Under that hypothesis the classified
input set is identical in any surrounding file context. -/
theorem C5_gzip_invariance_amended {α : Type}
    (pre post : List (α × ByteStr × GzipRun)) (f : α)
    (origHead wrapHead out : ByteStr) (g : GzipRun)
    (hw : startsWithBytes wrapHead gzipMagic = true)
    (hout : out ≠ [])
    (hsig : sigClass out = sigClass (gzipStep g origHead)) :
    files (pre ++ (f, wrapHead, GzipRun.calledProcessError out) :: post)
      = files (pre ++ (f, origHead, g) :: post) := by
  have h1 : gzipStep (GzipRun.calledProcessError out) wrapHead = out := by
    cases out with
    | nil => exact absurd rfl hout
    | cons o os => simp [gzipStep, hw]
  unfold files
  rw [List.foldl_append, List.foldl_append, List.foldl_cons, List.foldl_cons]
  congr 1
  show classifyStep _ f (gzipStep (GzipRun.calledProcessError out) wrapHead)
    = classifyStep _ f (gzipStep g origHead)
  rw [classifyStep_eq_classifyBySig, classifyStep_eq_classifyBySig, h1, hsig]

/-- Witness for the amended claim C5: a gzip-wrapped cpio prefix whose
decompression fails with the cpio bytes as partial output classifies
exactly like the uncompressed cpio file. -/
theorem C5_gzip_invariance_amended_witness :
    files [((0 : Nat), wrappedHead, GzipRun.calledProcessError cpioMagic1)]
      = files [((0 : Nat), cpioMagic1, GzipRun.exitZero)] :=
  C5_gzip_invariance_amended [] [] 0 cpioMagic1 wrappedHead cpioMagic1
    GzipRun.exitZero (by decide) (by decide) (by decide)

/-- Claim C6, counterexample.  A valid bzImage header (`HdrS` present)
with `pref_address = 0x100000` and `init_size = 0` in a 0x40000-byte file
yields the padding target `align_up(pref_address + init_size −
kernel_start + 0x10000) = 0x10000`, which is smaller than the unpadded
file size — refuting the claim that the computed value is always at
least the file size. -/
theorem C6_counterexample :
    hdrS_ok vEx = true ∧ pad_to vEx 0x100000 = 65536 ∧ vEx.size = 262144 ∧
    pad_to vEx 0x100000 < (vEx.size : Int) := by
  decide

/-- Claim C6 (amended): for every valid raw-kernel header the computed
padding target is a multiple of 4096, and the file size after the padding
step (the source zero-extends only when the target exceeds the current
size) is at least the unpadded size; the target itself can be smaller
than the file. -/
theorem C6_padding_amended (v : VmlinuzFile) (ks : Int) (_h : hdrS_ok v = true) :
    pad_to v ks % 4096 = 0 ∧ v.size ≤ padded_size v ks := by
  refine ⟨?_, ?_⟩
  · show align_up _ 0x1000 % 4096 = 0
    unfold align_up
    exact Int.mul_emod_left _ _
  · by_cases h' : pad_to v ks > (v.size : Int)
    · simp only [padded_size, if_pos h']
      omega
    · simp only [padded_size, if_neg h']
      exact le_refl _

/-- Witness for the amended claim C6 at the concrete header `vEx`. -/
theorem C6_padding_amended_witness :
    pad_to vEx 0x100000 % 4096 = 0 ∧ vEx.size ≤ padded_size vEx 0x100000 :=
  C6_padding_amended vEx 0x100000 (by decide)

/-- Claim C7, counterexample.  `"arm"` and `"aarch64"` are both in the ARM
class, yet `Architecture.__eq__` compares them unequal: the groups the
source consults are the four word-size groups, not the two classes, and
`"arm"` (in `arm_32`) and `"aarch64"` (in `arm_64`) share no group, so
equality falls back to string comparison. -/
theorem C7_counterexample :
    "arm" ∈ armClass ∧ "aarch64" ∈ armClass ∧ "arm" ≠ "aarch64" ∧
    archEq "arm" "aarch64" = false ∧ archEq "aarch64" "arm" = false := by
  decide

/-- Claim C7 (amended): `Architecture.__eq__` is group-based over the four
groups `arm_32`, `arm_64`, `x86_32`, `x86_64`, not class-based: two values
in the same group compare equal even when their strings differ; values in
different classes always compare unequal; and across distinct groups —
even inside the same ARM or x86 class — equality holds only for equal
strings. -/
theorem C7_group_equality_amended :
    (∀ g ∈ archGroups, ∀ a ∈ g, ∀ b ∈ g, archEq a b = true) ∧
    (∀ a ∈ armClass, ∀ b ∈ x86Class, archEq a b = false ∧ archEq b a = false) ∧
    (∀ a ∈ allArchitectures, ∀ b ∈ allArchitectures,
      (∀ g ∈ archGroups, ¬(a ∈ g ∧ b ∈ g)) → (archEq a b = true ↔ a = b)) := by
  decide

/-- Witness for the amended claim C7: same-group values compare equal,
cross-class values do not. -/
theorem C7_group_equality_amended_witness :
    archEq "arm64" "aarch64" = true ∧ archEq "arm" "i386" = false :=
  ⟨C7_group_equality_amended.1 arm_64 (by decide) "arm64" (by decide)
      "aarch64" (by decide),
    (C7_group_equality_amended.2.1 "arm" (by decide) "i386" (by decide)).1⟩

/-- Claim C8: whenever `kern_guid` is not explicitly disabled, the
resolved command line is the user-supplied arguments joined with spaces
with the literal token `kern_guid=%U` prepended; with no arguments at all
the command-line file content is exactly `"kern_guid=%U --"`, not the
bare placeholder `"--"`. -/
theorem C8_cmdline_kern_guid :
    (∀ cmd : List String, cmdline cmd true =
      "kern_guid=%U " ++ (if cmd.isEmpty then "--" else String.intercalate " " cmd)) ∧
    cmdline [] true = "kern_guid=%U --" := by
  constructor
  · intro cmd
    match cmd with
    | [] => exact kern_guid_pair "--"
    | [c0] => exact kern_guid_pair c0
    | c0 :: c1 :: cs => exact kern_guid_pair (String.intercalate " " (c0 :: c1 :: cs))
  · decide

/-- Claim C9: `Architecture.__ne__` is not the logical negation of
`Architecture.__eq__`: for two distinct strings inside the same group
(such as `"arm64"` and `"aarch64"`), `==` returns `True` via the group
rule while `!=` also returns `True` via the string-comparison fallback. -/
theorem C9_ne_not_negation_of_eq :
    ∀ g ∈ archGroups, ∀ a ∈ g, ∀ b ∈ g, a ≠ b →
      archEq a b = true ∧ archNe a b = true := by
  decide

/-- Witness for claim C9 at `"arm64"`/`"aarch64"`. -/
theorem C9_ne_not_negation_of_eq_witness :
    archEq "arm64" "aarch64" = true ∧ archNe "arm64" "aarch64" = true :=
  C9_ne_not_negation_of_eq arm_64 (by decide) "arm64" (by decide)
    "aarch64" (by decide) (by decide)

/-- Claim C10: resolving `--kernel-start` with an explicit value raises
`NameError` (the source body applies `parse_bytesize` to the unbound name
`pad`) and never returns the parsed address; without an explicit value it
returns the default `0x100000`. -/
theorem C10_kernel_start_name_error :
    (∀ s : String, kernel_start (some s) = .error .nameError) ∧
    kernel_start none = .ok 0x100000 :=
  ⟨fun _ => rfl, rfl⟩

end Depthcharge
